import Mathlib

/-!
Shallow embedding of the e-commerce shopping-cart domain model of
`src/src/foundation/foundation.ts`, together with theorems settling the
claims about it.

Modelling conventions:
* JavaScript numbers are modelled as rationals (`ℚ`); identifiers as `Int`.
* `Date` timestamps and the generated order id are ambient inputs in the
  source (`new Date()`, `generateOrderId()`); they are passed as explicit
  `now : ℚ` / `oid : String` parameters here.
* Functions that `throw` are modelled with `Except`, with one error
  constructor per distinct `throw` site.
* `addToCart` and `updateOrderStatus` mutate their argument in place in the
  source; the pure embedding returns the updated record.  Because
  `createOrder` copies the cart's item *array* with a spread (`[...cart.items]`)
  while the `CartItem` objects stay shared, an additional reference-level
  model (`derefItem`, `addToCartRef`, `createOrderRef`) makes the object
  identity of cart items explicit: a heap is a list of `CartItem` cells and
  carts/orders hold lists of cell indices.
-/

namespace Foundation

/-- `ProductCategory` enum of foundation.ts. -/
inductive ProductCategory where
  | PHYSICAL
  | DIGITAL
  | SUBSCRIPTION
deriving DecidableEq, Repr, Inhabited

/-- `OrderStatus` enum of foundation.ts. -/
inductive OrderStatus where
  | PENDING
  | PROCESSING
  | SHIPPED
  | DELIVERED
  | CANCELLED
deriving DecidableEq, Repr, Inhabited, Fintype

/-- `UserRole` enum of foundation.ts. -/
inductive UserRole where
  | CUSTOMER
  | ADMIN
  | MODERATOR
deriving DecidableEq, Repr, Inhabited

/-- `DiscountType = "PERCENTAGE" | "FIXED" | null` of foundation.ts;
the `null` constructor stands for the TypeScript `null` literal. -/
inductive DiscountType where
  | PERCENTAGE
  | FIXED
  | null
deriving DecidableEq, Repr, Inhabited

/-- `Product` interface of foundation.ts. -/
structure Product where
  id : Int
  name : String
  price : ℚ
  category : ProductCategory
  stock : ℚ
  downloadUrl : Option String
  createdAt : ℚ
deriving DecidableEq, Repr, Inhabited

/-- `CartItem` interface of foundation.ts. -/
structure CartItem where
  productId : Int
  name : String
  price : ℚ
  quantity : ℚ
  category : ProductCategory
deriving DecidableEq, Repr, Inhabited

/-- `Cart` interface of foundation.ts. -/
structure Cart where
  userId : Int
  items : List CartItem
  createdAt : ℚ
  lastModified : ℚ
deriving DecidableEq, Repr, Inhabited

/-- `User` interface of foundation.ts. -/
structure User where
  id : Int
  username : String
  email : String
  role : UserRole
  isActive : Bool
  cart : List CartItem
deriving DecidableEq, Repr, Inhabited

/-- `Order` interface of foundation.ts. -/
structure Order where
  id : String
  userId : Int
  items : List CartItem
  subtotal : ℚ
  total : ℚ
  status : OrderStatus
  shippingAddress : Option String
  createdAt : ℚ
  updatedAt : ℚ
deriving DecidableEq, Repr, Inhabited

/-- The list-update core of `addToCart`: `cart.items.find(item =>
item.productId === product.id)` finds the first matching item and the source
increments its quantity in place; otherwise a new `CartItem` snapshot of the
product is pushed at the end. -/
def addItem (items : List CartItem) (product : Product) (quantity : ℚ) :
    List CartItem :=
  match items with
  | [] => [⟨product.id, product.name, product.price, quantity, product.category⟩]
  | item :: rest =>
    if item.productId = product.id then
      { item with quantity := item.quantity + quantity } :: rest
    else
      item :: addItem rest product quantity

/-- `addToCart(cart, product, quantity)` of foundation.ts; `now` stands for
the ambient `new Date()` written to `lastModified`. -/
def addToCart (cart : Cart) (product : Product) (quantity : ℚ) (now : ℚ) :
    Cart :=
  { cart with items := addItem cart.items product quantity, lastModified := now }

/-- `calculateSubtotal(cart)` of foundation.ts: `reduce` over the items with
initial accumulator `0`. -/
def calculateSubtotal (cart : Cart) : ℚ :=
  cart.items.foldl (fun total item => total + item.price * item.quantity) 0

/-- `applyDiscount(amount, discountType, discountValue)` of foundation.ts. -/
def applyDiscount (amount : ℚ) (discountType : DiscountType)
    (discountValue : ℚ) : ℚ :=
  match discountType with
  | .PERCENTAGE => amount - amount * discountValue / 100
  | .FIXED => max 0 (amount - discountValue)
  | .null => amount

/-- `calculateTax(amount, taxRate)` of foundation.ts. -/
def calculateTax (amount : ℚ) (taxRate : ℚ) : ℚ :=
  amount * (taxRate / 100)

/-- `calculateTotal(cart, discountType, discountValue, taxRate?)` of
foundation.ts.  The optional parameter is modelled as `Option ℚ`; the
source's `taxRate || 0` maps `undefined` to `0` and is the identity on every
number (the only falsy rational, `0`, is sent to `0`). -/
def calculateTotal (cart : Cart) (discountType : DiscountType)
    (discountValue : ℚ) (taxRate : Option ℚ) : ℚ :=
  let subtotal := calculateSubtotal cart
  let afterDiscount := applyDiscount subtotal discountType discountValue
  let tax := calculateTax afterDiscount (taxRate.getD 0)
  afterDiscount + tax

/-- The source's `shippingAddress || null`: `undefined`, `null` and the empty
string all become `null`. -/
def addressOrNull (s : Option String) : Option String :=
  match s with
  | some str => if str = "" then none else some str
  | none => none

/-- `createOrder(cart, user, shippingAddress?)` of foundation.ts; `oid`
stands for the ambient `generateOrderId()` and `now` for `new Date()`.
`items` is the value of the spread `[...cart.items]` (at the level of item
values; the sharing of the item objects is modelled by `createOrderRef`
below). -/
def createOrder (cart : Cart) (user : User) (shippingAddress : Option String)
    (oid : String) (now : ℚ) : Order :=
  { id := oid
    userId := user.id
    items := cart.items
    subtotal := calculateSubtotal cart
    total := calculateTotal cart .null 0 (some 10)
    status := .PENDING
    shippingAddress := addressOrNull shippingAddress
    createdAt := now
    updatedAt := now }

/-- The `validTransitions` record literal inside `isValidStatusTransition`. -/
def validTransitions (status : OrderStatus) : List OrderStatus :=
  match status with
  | .PENDING => [.PROCESSING, .CANCELLED]
  | .PROCESSING => [.SHIPPED, .CANCELLED]
  | .SHIPPED => [.DELIVERED]
  | .DELIVERED => []
  | .CANCELLED => []

/-- `isValidStatusTransition(currentStatus, newStatus)` of foundation.ts. -/
def isValidStatusTransition (currentStatus newStatus : OrderStatus) : Bool :=
  (validTransitions currentStatus).contains newStatus

/-- `canCancelOrder(user)` of foundation.ts. -/
def canCancelOrder (user : User) : Bool :=
  user.role = UserRole.ADMIN || user.role = UserRole.MODERATOR

/-- The two `throw` sites of `updateOrderStatus`. -/
inductive OrderError where
  | invalidTransition (currentStatus newStatus : OrderStatus)
  | permissionDenied
deriving DecidableEq, Repr

/-- `updateOrderStatus(order, newStatus, user)` of foundation.ts; `now`
stands for the ambient `new Date()` written to `updatedAt`. -/
def updateOrderStatus (order : Order) (newStatus : OrderStatus) (user : User)
    (now : ℚ) : Except OrderError Order :=
  if ¬ isValidStatusTransition order.status newStatus then
    .error (.invalidTransition order.status newStatus)
  else if newStatus = OrderStatus.CANCELLED ∧ ¬ canCancelOrder user then
    .error .permissionDenied
  else
    .ok { order with status := newStatus, updatedAt := now }

/-- `updateOrderStatus` with the post-state of the mutated `order` record
made explicit: the second component is the value of `order` after the call
returns or throws.  Both `throw` statements of the source precede the two
assignments `order.status = newStatus; order.updatedAt = new Date()`, so on
either error the record still holds its prior field values. -/
def updateOrderStatusState (order : Order) (newStatus : OrderStatus)
    (user : User) (now : ℚ) : Except OrderError Order × Order :=
  if ¬ isValidStatusTransition order.status newStatus then
    (.error (.invalidTransition order.status newStatus), order)
  else if newStatus = OrderStatus.CANCELLED ∧ ¬ canCancelOrder user then
    (.error .permissionDenied, order)
  else
    let updated := { order with status := newStatus, updatedAt := now }
    (.ok updated, updated)

/-- `isInStock(product, quantity)` of foundation.ts. -/
def isInStock (product : Product) (quantity : ℚ) : Bool :=
  if product.category = ProductCategory.DIGITAL ∨
      product.category = ProductCategory.SUBSCRIPTION then
    true
  else
    product.stock ≥ quantity

/-- The two `throw` sites of `validateCart`. -/
inductive CartError where
  | productNotFound (productId : Int)
  | outOfStock (name : String)
deriving DecidableEq, Repr

/-- The catalog lookup inside `validateCart`:
`products.find(p => p.id === item.productId)`. -/
def lookupProduct (products : List Product) (item : CartItem) :
    Option Product :=
  products.find? (fun p => p.id == item.productId)

/-- The `for (const item of cart.items)` loop of `validateCart`, one item at
a time in list order. -/
def validateItems (products : List Product) (items : List CartItem) :
    Except CartError Bool :=
  match items with
  | [] => .ok true
  | item :: rest =>
    match lookupProduct products item with
    | none => .error (.productNotFound item.productId)
    | some product =>
      if ¬ isInStock product item.quantity then
        .error (.outOfStock product.name)
      else
        validateItems products rest

/-- `validateCart(cart, products)` of foundation.ts. -/
def validateCart (cart : Cart) (products : List Product) :
    Except CartError Bool :=
  validateItems products cart.items

/-!
Reference-level model of cart items.  In JavaScript the `CartItem`s held by
`cart.items` are objects: the spread `[...cart.items]` inside `createOrder`
copies the array but not the objects, and the `existingItem.quantity +=
quantity` branch of `addToCart` mutates an object in place.  A heap is a
`List CartItem` of cells; carts and orders hold lists of cell indices.
-/

/-- Read a cart-item cell from the heap. -/
def derefItem (heap : List CartItem) (r : Nat) : CartItem :=
  heap.getD r default

/-- A `Cart` whose `items` array holds references to heap cells. -/
structure RefCart where
  userId : Int
  items : List Nat
  createdAt : ℚ
  lastModified : ℚ
deriving DecidableEq, Repr

/-- An `Order` whose `items` array holds references to heap cells. -/
structure RefOrder where
  id : String
  userId : Int
  items : List Nat
  subtotal : ℚ
  total : ℚ
  status : OrderStatus
  shippingAddress : Option String
  createdAt : ℚ
  updatedAt : ℚ
deriving DecidableEq, Repr

/-- The item values an order's reference array denotes in a given heap. -/
def orderItemValues (heap : List CartItem) (order : RefOrder) :
    List CartItem :=
  order.items.map (derefItem heap)

/-- Reference-level `calculateSubtotal`. -/
def calculateSubtotalRef (heap : List CartItem) (items : List Nat) : ℚ :=
  (items.map (derefItem heap)).foldl
    (fun total item => total + item.price * item.quantity) 0

/-- Reference-level `calculateTotal`. -/
def calculateTotalRef (heap : List CartItem) (items : List Nat)
    (discountType : DiscountType) (discountValue : ℚ) (taxRate : Option ℚ) :
    ℚ :=
  let subtotal := calculateSubtotalRef heap items
  let afterDiscount := applyDiscount subtotal discountType discountValue
  let tax := calculateTax afterDiscount (taxRate.getD 0)
  afterDiscount + tax

/-- Reference-level `addToCart`: `find` locates the first referenced cell
whose `productId` matches and the source mutates that cell in place
(`existingItem.quantity += quantity`); otherwise a fresh cell is allocated
and its reference pushed onto the cart's array.  Returns the new heap and
the updated cart. -/
def addToCartRef (heap : List CartItem) (cart : RefCart) (product : Product)
    (quantity : ℚ) (now : ℚ) : List CartItem × RefCart :=
  match cart.items.find? (fun r => (derefItem heap r).productId == product.id) with
  | some r =>
    let item := derefItem heap r
    (heap.set r { item with quantity := item.quantity + quantity },
     { cart with lastModified := now })
  | none =>
    (heap ++ [⟨product.id, product.name, product.price, quantity,
               product.category⟩],
     { cart with items := cart.items ++ [heap.length], lastModified := now })

/-- Reference-level `createOrder`: the spread `[...cart.items]` copies the
array of references, so the order ends up holding the *same* cell indices as
the cart.  The heap is unchanged. -/
def createOrderRef (heap : List CartItem) (cart : RefCart) (user : User)
    (shippingAddress : Option String) (oid : String) (now : ℚ) : RefOrder :=
  { id := oid
    userId := user.id
    items := cart.items
    subtotal := calculateSubtotalRef heap cart.items
    total := calculateTotalRef heap cart.items .null 0 (some 10)
    status := .PENDING
    shippingAddress := addressOrNull shippingAddress
    createdAt := now
    updatedAt := now }

/-!  Shared concrete data used by witnesses and counterexample inputs. -/

/-- A physical product with stock 5, as in the example usage of the source. -/
def widgetP : Product := ⟨1, "Widget", 10, .PHYSICAL, 5, none, 0⟩

/-- An order sitting in the `PENDING` state. -/
def pendingOrder : Order := ⟨"ORD-0", 7, [], 0, 0, .PENDING, none, 0, 0⟩

/-- A `CUSTOMER`-role user. -/
def customerUser : User := ⟨7, "johndoe", "john@example.com", .CUSTOMER, true, []⟩

/-- Heap with one cart-item cell: one `widgetP` at quantity 1. -/
def aliasHeap0 : List CartItem := [⟨1, "Widget", 10, 1, .PHYSICAL⟩]

/-- A cart referencing cell 0 of `aliasHeap0`. -/
def aliasCart0 : RefCart := ⟨7, [0], 0, 0⟩

/-- The order created from `aliasCart0` before any further cart mutation. -/
def aliasOrder : RefOrder :=
  createOrderRef aliasHeap0 aliasCart0 customerUser none "ORD-1" 0

/-- The heap after `addToCart(cart, widgetP, 2)` runs on `aliasCart0`: the
increment branch fires and mutates cell 0 in place. -/
def aliasHeap1 : List CartItem := (addToCartRef aliasHeap0 aliasCart0 widgetP 2 1).1

/-!  General lemmas about the embedded operations. -/

/-- The exception-free and state-passing models of `updateOrderStatus`
return the same result. -/
theorem updateOrderStatusState_fst (order : Order) (newStatus : OrderStatus)
    (user : User) (now : ℚ) :
    (updateOrderStatusState order newStatus user now).1 =
      updateOrderStatus order newStatus user now := by
  simp only [updateOrderStatusState, updateOrderStatus]
  split_ifs <;> rfl

/-!  Claim theorems. -/

/-- C4: `isValidStatusTransition` realises exactly the table
PENDING → {PROCESSING, CANCELLED}, PROCESSING → {SHIPPED, CANCELLED},
SHIPPED → {DELIVERED}, DELIVERED → {}, CANCELLED → {}; every unlisted pair,
every self-transition, and every transition out of the terminal states
DELIVERED and CANCELLED is rejected. -/
theorem isValidStatusTransition_table :
    ∀ c n : OrderStatus,
      (isValidStatusTransition c n = true ↔
        (c = .PENDING ∧ (n = .PROCESSING ∨ n = .CANCELLED)) ∨
        (c = .PROCESSING ∧ (n = .SHIPPED ∨ n = .CANCELLED)) ∨
        (c = .SHIPPED ∧ n = .DELIVERED)) ∧
      isValidStatusTransition c c = false ∧
      isValidStatusTransition .DELIVERED n = false ∧
      isValidStatusTransition .CANCELLED n = false := by
  decide

/-- C5: `applyDiscount` subtracts `amount*value/100` for PERCENTAGE with no
clamping (a rate above 100 on a positive amount goes negative), floor-clamps
FIXED at 0, and is the identity for the `null` discount type. -/
theorem applyDiscount_spec :
    ∀ amount value : ℚ,
      applyDiscount amount .PERCENTAGE value =
        amount - amount * value / 100 ∧
      applyDiscount amount .FIXED value = max 0 (amount - value) ∧
      applyDiscount amount .null value = amount ∧
      (0 < amount → 100 < value →
        applyDiscount amount .PERCENTAGE value < 0) := by
  intro a v
  refine ⟨rfl, rfl, rfl, fun ha hv => ?_⟩
  simp only [applyDiscount]
  nlinarith [mul_pos ha (sub_pos.mpr hv)]

/-- Witness for C5 at amount 100, value 150. -/
theorem applyDiscount_spec_witness :
    (0 : ℚ) < 100 ∧ (100 : ℚ) < 150 ∧
    applyDiscount 100 .PERCENTAGE 150 < 0 :=
  ⟨by norm_num, by norm_num,
    (applyDiscount_spec 100 150).2.2.2 (by norm_num) (by norm_num)⟩

/-- C9: `isInStock` is always true for DIGITAL and SUBSCRIPTION products
regardless of the stock field, and for a PHYSICAL product holds exactly when
the stock covers the requested quantity. -/
theorem isInStock_spec :
    ∀ (p : Product) (q : ℚ),
      (p.category = .DIGITAL ∨ p.category = .SUBSCRIPTION →
        isInStock p q = true) ∧
      (p.category = .PHYSICAL → (isInStock p q = true ↔ q ≤ p.stock)) := by
  intro p q
  constructor
  · intro h
    rcases h with h | h <;> simp [isInStock, h]
  · intro h
    simp [isInStock, h]

/-- Witness for C9: a DIGITAL product with stock 0 reports in stock for
quantity 9999, and the PHYSICAL `widgetP` with stock 5 covers quantity 5 but
not 6. -/
theorem isInStock_spec_witness :
    isInStock ⟨2, "TypeScript Guide", 30, .DIGITAL, 0, none, 0⟩ 9999 = true ∧
    (isInStock widgetP 5 = true ↔ (5 : ℚ) ≤ widgetP.stock) ∧
    (isInStock widgetP 6 = true ↔ (6 : ℚ) ≤ widgetP.stock) :=
  ⟨(isInStock_spec ⟨2, "TypeScript Guide", 30, .DIGITAL, 0, none, 0⟩ 9999).1
      (Or.inl rfl),
   (isInStock_spec widgetP 5).2 rfl,
   (isInStock_spec widgetP 6).2 rfl⟩

/-- C2: `updateOrderStatus` raises the invalid-transition error exactly when
`isValidStatusTransition` rejects the pair — this check comes first, so it
fires even for a CANCELLED target requested by a CUSTOMER; with a valid
transition it raises the permission error exactly when the target is
CANCELLED and the user cannot cancel; otherwise it returns the order with
`status` set to the new status and `updatedAt` refreshed. -/
theorem updateOrderStatus_spec :
    ∀ (order : Order) (newStatus : OrderStatus) (user : User) (now : ℚ),
      (isValidStatusTransition order.status newStatus = false →
        updateOrderStatus order newStatus user now =
          .error (.invalidTransition order.status newStatus)) ∧
      (isValidStatusTransition order.status newStatus = true →
        newStatus = .CANCELLED → canCancelOrder user = false →
        updateOrderStatus order newStatus user now =
          .error .permissionDenied) ∧
      (isValidStatusTransition order.status newStatus = true →
        (newStatus = .CANCELLED → canCancelOrder user = true) →
        updateOrderStatus order newStatus user now =
          .ok { order with status := newStatus, updatedAt := now }) := by
  intro o ns u t
  refine ⟨?_, ?_, ?_⟩
  · intro h
    simp [updateOrderStatus, h]
  · intro h1 h2 h3
    subst h2
    simp [updateOrderStatus, h1, h3]
  · intro h1 h2
    by_cases hc : ns = OrderStatus.CANCELLED
    · subst hc
      have hcan := h2 rfl
      simp [updateOrderStatus, h1, hcan]
    · simp [updateOrderStatus, h1, hc]

/-- Witness for C2: a CUSTOMER asking to cancel a PENDING order (a valid
transition) is refused with the permission error. -/
theorem updateOrderStatus_spec_witness :
    updateOrderStatus pendingOrder .CANCELLED customerUser 5 =
      .error .permissionDenied :=
  (updateOrderStatus_spec pendingOrder .CANCELLED customerUser 5).2.1
    (by decide) rfl (by decide)

/-- C10: whenever `updateOrderStatus` throws (either error), the order
record is left with exactly its prior field values — both checks precede
the two assignments. -/
theorem updateOrderStatusState_atomic :
    ∀ (order : Order) (newStatus : OrderStatus) (user : User) (now : ℚ)
      (e : OrderError),
      (updateOrderStatusState order newStatus user now).1 = .error e →
      (updateOrderStatusState order newStatus user now).2 = order := by
  intro o ns u t e h
  simp only [updateOrderStatusState] at h ⊢
  split_ifs at h ⊢
  · rfl
  · rfl

/-- Witness for C10: the failed SHIPPED request on a PENDING order leaves
the order untouched. -/
theorem updateOrderStatusState_atomic_witness :
    (updateOrderStatusState pendingOrder .SHIPPED customerUser 5).2 =
      pendingOrder :=
  updateOrderStatusState_atomic pendingOrder .SHIPPED customerUser 5
    (.invalidTransition .PENDING .SHIPPED) rfl

/-- A single cart item passes validation: its product is found in the
catalog and `isInStock` holds for its quantity. -/
def itemPasses (products : List Product) (item : CartItem) : Bool :=
  match lookupProduct products item with
  | none => false
  | some p => isInStock p item.quantity

/-- `validateItems` succeeds exactly when every item passes. -/
theorem validateItems_ok_iff (products : List Product)
    (items : List CartItem) :
    validateItems products items = .ok true ↔
      ∀ i ∈ items, itemPasses products i = true := by
  induction items with
  | nil => simp [validateItems]
  | cons item rest ih =>
    simp only [validateItems]
    cases h : lookupProduct products item with
    | none => simp [itemPasses, h]
    | some p =>
      by_cases hs : isInStock p item.quantity = true
      · simp [itemPasses, h, hs, ih]
      · simp [itemPasses, h, hs]

/-- `validateItems` skips over a passing prefix unchanged. -/
theorem validateItems_append (products : List Product)
    (pre post : List CartItem)
    (hpre : ∀ i ∈ pre, itemPasses products i = true) :
    validateItems products (pre ++ post) = validateItems products post := by
  induction pre with
  | nil => rfl
  | cons j rest ih =>
    have hj := hpre j (by simp)
    simp only [List.cons_append, validateItems]
    cases h : lookupProduct products j with
    | none => simp [itemPasses, h] at hj
    | some p =>
      have hs : isInStock p j.quantity = true := by
        simpa [itemPasses, h] using hj
      simp only [hs, not_true, if_false]
      exact ih (fun i hi => hpre i (by simp [hi]))

/-- C3: `validateCart` walks the cart's items in order; it returns `true`
exactly when every item's product is found and in stock, and it aborts at
the first failing item — after a passing prefix, a missing product raises
the not-found error for that item and an out-of-stock product raises the
out-of-stock error with that product's name, regardless of later items. -/
theorem validateCart_spec :
    ∀ (cart : Cart) (products : List Product),
      (validateCart cart products = .ok true ↔
        ∀ i ∈ cart.items, itemPasses products i = true) ∧
      (∀ pre item post, cart.items = pre ++ item :: post →
        (∀ j ∈ pre, itemPasses products j = true) →
        lookupProduct products item = none →
        validateCart cart products =
          .error (.productNotFound item.productId)) ∧
      (∀ pre item post p, cart.items = pre ++ item :: post →
        (∀ j ∈ pre, itemPasses products j = true) →
        lookupProduct products item = some p →
        isInStock p item.quantity = false →
        validateCart cart products = .error (.outOfStock p.name)) := by
  intro cart products
  refine ⟨validateItems_ok_iff products cart.items, ?_, ?_⟩
  · intro pre item post hsplit hpre hnone
    show validateItems products cart.items = _
    rw [hsplit, validateItems_append products pre _ hpre]
    simp [validateItems, hnone]
  · intro pre item post p hsplit hpre hfound hstock
    show validateItems products cart.items = _
    rw [hsplit, validateItems_append products pre _ hpre]
    simp [validateItems, hfound, hstock]

/-- Witness for C3: a cart holding one `widgetP` item validated against an
empty catalog fails with the not-found error for product 1. -/
theorem validateCart_spec_witness :
    validateCart ⟨7, [⟨1, "Widget", 10, 1, .PHYSICAL⟩], 0, 0⟩ [] =
      .error (.productNotFound 1) :=
  (validateCart_spec ⟨7, [⟨1, "Widget", 10, 1, .PHYSICAL⟩], 0, 0⟩ []).2.1
    [] ⟨1, "Widget", 10, 1, .PHYSICAL⟩ [] rfl (by simp) rfl

/-- C6: `calculateTotal` is discounted subtotal plus tax on the discounted
amount (never on the gross subtotal); an absent tax rate behaves as rate 0,
and the result with rate `r` equals the discounted amount scaled by
`1 + r/100`. -/
theorem calculateTotal_spec :
    ∀ (cart : Cart) (dk : DiscountType) (dv r : ℚ),
      calculateTotal cart dk dv (some r) =
        applyDiscount (calculateSubtotal cart) dk dv +
          calculateTax (applyDiscount (calculateSubtotal cart) dk dv) r ∧
      calculateTotal cart dk dv none =
        applyDiscount (calculateSubtotal cart) dk dv +
          calculateTax (applyDiscount (calculateSubtotal cart) dk dv) 0 ∧
      calculateTotal cart dk dv none =
        applyDiscount (calculateSubtotal cart) dk dv ∧
      calculateTotal cart dk dv (some 0) = calculateTotal cart dk dv none ∧
      calculateTotal cart dk dv (some r) =
        applyDiscount (calculateSubtotal cart) dk dv * (1 + r / 100) := by
  intro cart dk dv r
  refine ⟨rfl, rfl, ?_, rfl, ?_⟩
  · simp [calculateTotal, calculateTax]
  · simp only [calculateTotal, calculateTax, Option.getD_some]
    ring

/-- C7: `createOrder` produces a PENDING order whose items are the cart's
items, whose subtotal is `calculateSubtotal`, and whose total is
`calculateTotal` with no discount and the hard-coded 10% tax rate, i.e.
`11/10` of the subtotal. -/
theorem createOrder_spec :
    ∀ (cart : Cart) (user : User) (addr : Option String) (oid : String)
      (now : ℚ),
      (createOrder cart user addr oid now).status = .PENDING ∧
      (createOrder cart user addr oid now).items = cart.items ∧
      (createOrder cart user addr oid now).subtotal =
        calculateSubtotal cart ∧
      (createOrder cart user addr oid now).total =
        calculateTotal cart .null 0 (some 10) ∧
      (createOrder cart user addr oid now).total =
        11 / 10 * calculateSubtotal cart := by
  intro cart user addr oid now
  refine ⟨rfl, rfl, rfl, rfl, ?_⟩
  show calculateTotal cart .null 0 (some 10) = _
  simp only [calculateTotal, calculateTax, applyDiscount, Option.getD_some]
  ring

/-- The product keys of `addItem`: unchanged when the product's id is
already present, otherwise the new id is appended. -/
theorem addItem_map_productId (items : List CartItem) (p : Product)
    (q : ℚ) :
    (addItem items p q).map (fun i => i.productId) =
      if p.id ∈ items.map (fun i => i.productId) then
        items.map (fun i => i.productId)
      else
        items.map (fun i => i.productId) ++ [p.id] := by
  induction items with
  | nil => simp [addItem]
  | cons item rest ih =>
    by_cases h : item.productId = p.id
    · simp [addItem, h]
    · by_cases hm : p.id ∈ rest.map (fun i => i.productId)
      · simp [addItem, h, ih, hm, Ne.symm h]
      · simp [addItem, h, ih, hm, Ne.symm h]

/-- `addItem` at the first matching item: with no match before it, the
matching item's quantity is incremented by the given amount and every other
item is untouched. -/
theorem addItem_of_found (pre : List CartItem) (item : CartItem)
    (post : List CartItem) (p : Product) (q : ℚ)
    (hpre : ∀ j ∈ pre, j.productId ≠ p.id)
    (hitem : item.productId = p.id) :
    addItem (pre ++ item :: post) p q =
      pre ++ { item with quantity := item.quantity + q } :: post := by
  induction pre with
  | nil => simp [addItem, hitem]
  | cons j rest ih =>
    have hj := hpre j (by simp)
    simp only [List.cons_append, addItem, hj, if_false]
    exact congrArg (j :: ·) (ih (fun i hi => hpre i (by simp [hi])))

/-- When no existing item matches the product's id, `addItem` appends
exactly one snapshot of the product at the end. -/
theorem addItem_of_not_mem (items : List CartItem) (p : Product) (q : ℚ)
    (h : ∀ i ∈ items, i.productId ≠ p.id) :
    addItem items p q =
      items ++ [⟨p.id, p.name, p.price, q, p.category⟩] := by
  induction items with
  | nil => rfl
  | cons item rest ih =>
    have hne := h item (by simp)
    simp only [addItem, hne, if_false, List.cons_append, List.cons.injEq,
      true_and]
    exact ih (fun i hi => h i (by simp [hi]))

/-- C8: `addToCart` keeps at most one cart item per product id — it
preserves distinctness of the product keys; when the product is already in
the cart the key list is untouched (so no entry is appended and the length
is unchanged) and the first matching item — the unique one under the
invariant — has its quantity incremented by the given amount with every
other item left untouched; otherwise exactly one snapshot of the product is
appended; and two successive adds of the same product to an empty cart
yield a single item whose quantity is the sum. -/
theorem addToCart_spec :
    ∀ (cart : Cart) (p : Product) (q now : ℚ),
      (((cart.items.map (fun i => i.productId)).Nodup →
        ((addToCart cart p q now).items.map (fun i => i.productId)).Nodup)) ∧
      (p.id ∈ cart.items.map (fun i => i.productId) →
        (addToCart cart p q now).items.map (fun i => i.productId) =
          cart.items.map (fun i => i.productId)) ∧
      (p.id ∈ cart.items.map (fun i => i.productId) →
        (addToCart cart p q now).items.length = cart.items.length) ∧
      (∀ pre item post, cart.items = pre ++ item :: post →
        (∀ j ∈ pre, j.productId ≠ p.id) →
        item.productId = p.id →
        (addToCart cart p q now).items =
          pre ++ { item with quantity := item.quantity + q } :: post) ∧
      ((∀ i ∈ cart.items, i.productId ≠ p.id) →
        (addToCart cart p q now).items =
          cart.items ++ [⟨p.id, p.name, p.price, q, p.category⟩]) ∧
      (∀ (userId : Int) (c0 m0 q2 t2 : ℚ),
        (addToCart (addToCart ⟨userId, [], c0, m0⟩ p q now) p q2 t2).items =
          [⟨p.id, p.name, p.price, q + q2, p.category⟩]) := by
  intro cart p q now
  refine ⟨?_, ?_, ?_, ?_, ?_, ?_⟩
  · intro hnd
    rw [show (addToCart cart p q now).items = addItem cart.items p q from rfl,
      addItem_map_productId]
    by_cases hm : p.id ∈ cart.items.map (fun i => i.productId)
    · simpa [hm] using hnd
    · simp [hm, List.nodup_append, hnd]
  · intro hm
    rw [show (addToCart cart p q now).items = addItem cart.items p q from rfl,
      addItem_map_productId]
    simp [hm]
  · intro hm
    have hkeys :
        (addToCart cart p q now).items.map (fun i => i.productId) =
          cart.items.map (fun i => i.productId) := by
      rw [show (addToCart cart p q now).items = addItem cart.items p q from
        rfl, addItem_map_productId]
      simp [hm]
    have := congrArg List.length hkeys
    simpa using this
  · intro pre item post hsplit hpre hitem
    show addItem cart.items p q = _
    rw [hsplit]
    exact addItem_of_found pre item post p q hpre hitem
  · intro h
    exact addItem_of_not_mem cart.items p q h
  · intro userId c0 m0 q2 t2
    simp [addToCart, addItem]

/-- Witness for C8: adding `widgetP` to an empty cart appends one snapshot
item, and adding 2 more `widgetP` to the two-item cart [Gadget, Widget]
increments the Widget entry from 1 to 1 + 2 and leaves the Gadget entry
untouched. -/
theorem addToCart_spec_witness :
    (addToCart ⟨7, [], 0, 0⟩ widgetP 1 1).items =
      [] ++ [⟨widgetP.id, widgetP.name, widgetP.price, 1,
        widgetP.category⟩] ∧
    (addToCart ⟨7, [⟨2, "Gadget", 20, 1, .PHYSICAL⟩,
        ⟨1, "Widget", 10, 1, .PHYSICAL⟩], 0, 0⟩ widgetP 2 1).items =
      [⟨2, "Gadget", 20, 1, .PHYSICAL⟩] ++
        ⟨1, "Widget", 10, 1 + 2, .PHYSICAL⟩ :: [] :=
  ⟨(addToCart_spec ⟨7, [], 0, 0⟩ widgetP 1 1).2.2.2.2.1 (by simp),
   (addToCart_spec ⟨7, [⟨2, "Gadget", 20, 1, .PHYSICAL⟩,
        ⟨1, "Widget", 10, 1, .PHYSICAL⟩], 0, 0⟩ widgetP 2 1).2.2.2.1
      [⟨2, "Gadget", 20, 1, .PHYSICAL⟩] ⟨1, "Widget", 10, 1, .PHYSICAL⟩ []
      rfl (by simp [widgetP]) rfl⟩

/-- A second physical product, absent from `aliasCart0`. -/
def gadgetP : Product := ⟨2, "Gadget", 20, .PHYSICAL, 5, none, 0⟩

/-- Reading a cell below the old length is unaffected by appending cells. -/
theorem derefItem_append (heap xs : List CartItem) (r : Nat)
    (h : r < heap.length) :
    derefItem (heap ++ xs) r = derefItem heap r := by
  simp [derefItem, List.getD_eq_getElem?_getD, List.getElem?_append, h]

/-- C1 counterexample input: the order created by `createOrderRef` from a cart holding
one Widget at quantity 1 initially denotes that item; after
`addToCart(cart, widgetP, 2)` runs on the cart, the increment branch
mutates the shared cart-item cell, and the same order's items now denote
quantity 3 — the order's items changed even though its stored `subtotal`
and `total` numbers did not. -/
theorem createOrder_aliasing_bug :
    orderItemValues aliasHeap0 aliasOrder =
      [⟨1, "Widget", 10, 1, .PHYSICAL⟩] ∧
    aliasOrder.subtotal = 10 ∧
    aliasOrder.total = 11 ∧
    orderItemValues aliasHeap1 aliasOrder =
      [⟨1, "Widget", 10, 3, .PHYSICAL⟩] ∧
    orderItemValues aliasHeap1 aliasOrder ≠
      orderItemValues aliasHeap0 aliasOrder := by
  refine ⟨?_, ?_, ?_, ?_, ?_⟩
  · norm_num [orderItemValues, aliasOrder, aliasHeap0, aliasCart0,
      customerUser, createOrderRef, derefItem]
  · norm_num [aliasOrder, aliasHeap0, aliasCart0, customerUser,
      createOrderRef, calculateSubtotalRef, derefItem]
  · norm_num [aliasOrder, aliasHeap0, aliasCart0, customerUser,
      createOrderRef, calculateTotalRef, calculateSubtotalRef, derefItem,
      applyDiscount, calculateTax]
  · norm_num [orderItemValues, aliasHeap1, aliasOrder, aliasHeap0,
      aliasCart0, customerUser, widgetP, addToCartRef, createOrderRef,
      derefItem, CartItem.mk.injEq]
  · norm_num [orderItemValues, aliasHeap1, aliasOrder, aliasHeap0,
      aliasCart0, customerUser, widgetP, addToCartRef, createOrderRef,
      derefItem, CartItem.mk.injEq]

/-- C1 amended: `createOrder` copies the cart's items *array* while sharing
the `CartItem` objects.  The order's stored `subtotal` and `total` are
plain numbers fixed at creation, and the append branch of `addToCart` (the
added product not yet in the cart, all cart references in range) leaves the
already-created order's denoted items unchanged; only the increment branch
can change them, through the shared cell. -/
theorem createOrderRef_frame :
    ∀ (heap : List CartItem) (cart : RefCart) (user : User)
      (addr : Option String) (oid : String) (now : ℚ) (p : Product)
      (q t : ℚ),
      (createOrderRef heap cart user addr oid now).subtotal =
        calculateSubtotalRef heap cart.items ∧
      (createOrderRef heap cart user addr oid now).total =
        calculateTotalRef heap cart.items .null 0 (some 10) ∧
      ((∀ r ∈ cart.items, r < heap.length) →
        cart.items.find?
            (fun r => (derefItem heap r).productId == p.id) = none →
        orderItemValues (addToCartRef heap cart p q t).1
            (createOrderRef heap cart user addr oid now) =
          orderItemValues heap
            (createOrderRef heap cart user addr oid now)) := by
  intro heap cart user addr oid now p q t
  refine ⟨rfl, rfl, fun hvalid hnone => ?_⟩
  simp only [addToCartRef, hnone, orderItemValues, createOrderRef]
  exact List.map_congr_left
    (fun r hr => derefItem_append heap _ r (hvalid r hr))

/-- Witness for C1's amended theorem: pushing the absent `gadgetP` onto the
Widget cart leaves the already-created order's items unchanged. -/
theorem createOrderRef_frame_witness :
    orderItemValues (addToCartRef aliasHeap0 aliasCart0 gadgetP 1 1).1
        aliasOrder =
      orderItemValues aliasHeap0 aliasOrder :=
  (createOrderRef_frame aliasHeap0 aliasCart0 customerUser none "ORD-1" 0
    gadgetP 1 1).2.2 (by decide) rfl

end Foundation
